import Mathlib

/-!
Shallow embedding of the vehicle-allocation service (FastAPI + MongoDB).

The embedded code lives in `app/routes/allocations.py` and
`app/routes/vehicles.py`.  The Mongo collections are modelled as Lean
lists of records; each route handler becomes a pure function from the
collection state (plus the current instant) to an outcome.  Python
`datetime` values are modelled as a calendar day number plus a
time-of-day measured in microseconds (`datetime.max.time()` is
23:59:59.999999, i.e. `tmax` microseconds).
-/

/-- Microseconds in `datetime.max.time()`: 23:59:59.999999. -/
def tmax : Nat := 86399999999

/-- A Python `datetime`: calendar day ordinal plus time of day in
microseconds.  A real Python datetime always satisfies `tod ≤ tmax`. -/
structure DateTime where
  day : Nat
  tod : Nat
deriving DecidableEq, Repr

/-- Well-formedness of an embedded datetime: the time of day fits in a day,
as it always does for a Python `datetime`. -/
def DateTime.wf (t : DateTime) : Prop := t.tod ≤ tmax

instance (t : DateTime) : Decidable t.wf := by
  unfold DateTime.wf; infer_instance

/-- Python `datetime` comparison `a <= b`: lexicographic on (day, time). -/
def dtLe (a b : DateTime) : Bool :=
  a.day < b.day || (a.day == b.day && a.tod ≤ b.tod)

/-- `datetime.combine(d, datetime.min.time())`: start of day `d`. -/
def combineMin (d : Nat) : DateTime := ⟨d, 0⟩

/-- `datetime.combine(d, datetime.max.time())`: end of day `d`. -/
def combineMax (d : Nat) : DateTime := ⟨d, tmax⟩

/-- `bson.ObjectId.is_valid` on a string: 24 hexadecimal characters. -/
def isHexChar (c : Char) : Bool :=
  c.isDigit || ('a' ≤ c && c ≤ 'f') || ('A' ≤ c && c ≤ 'F')

/-- Structural validity of an identifier string (`ObjectId.is_valid`);
`ObjectId(s)` raises `InvalidId` exactly when this is false. -/
def isValidObjectId (s : String) : Bool :=
  s.data.length == 24 && s.data.all isHexChar

/-- `app/models/allocations.py::AllocationStatus`. -/
inductive AllocationStatus
  | allocated
  | cancelled
deriving DecidableEq, Repr

/-- A stored allocation document.  `oid` is the Mongo `_id` rendered as a
string (the handlers always convert it with `str(...)`). -/
structure Allocation where
  oid : String
  employee_id : String
  vehicle_id : String
  allocation_date : DateTime
  purpose : Option String
  status : AllocationStatus
  created_at : DateTime
  updated_at : DateTime
deriving DecidableEq, Repr

/-- `app/models/allocations.py::AllocationCreate` (request body). -/
structure AllocationCreate where
  employee_id : String
  vehicle_id : String
  allocation_date : DateTime
  purpose : Option String
deriving DecidableEq, Repr

/-- `app/models/allocations.py::AllocationUpdate` (request body).  A field
is `some v` when it was supplied with a non-null value; both an omitted
field and an explicit null are dropped by
`dict(exclude_unset=True)` + the `v is not None` filter, so `none`
covers both. -/
structure AllocationUpdate where
  purpose : Option String
  status : Option AllocationStatus
deriving DecidableEq, Repr

/-- Errors of `POST /allocations/`. -/
inductive CreateError
  | invalidDate
  | conflict
deriving DecidableEq, Repr

/-- HTTP status code each `create_allocation` error is surfaced with. -/
def createErrorStatus : CreateError → Nat
  | CreateError.invalidDate => 400
  | CreateError.conflict => 401

/-- The `find_one` filter of the conflict check in `create_allocation`:
same `vehicle_id`, same `allocation_date` value, `status != "cancelled"`. -/
def conflictsWith (req : AllocationCreate) (a : Allocation) : Bool :=
  a.vehicle_id == req.vehicle_id
    && a.allocation_date == req.allocation_date
    && a.status != AllocationStatus.cancelled

/-- `create_allocation` (`POST /allocations/`).  `now` is the current
instant (`datetime.now()`, whose `.date()` is `now.day`); `newId` is the
`_id` Mongo generates for the inserted document. -/
def create_allocation (db : List Allocation) (now : DateTime)
    (req : AllocationCreate) (newId : String) :
    Except CreateError (List Allocation × Allocation) :=
  if req.allocation_date.day < now.day then
    Except.error CreateError.invalidDate
  else if db.any (conflictsWith req) then
    Except.error CreateError.conflict
  else
    let newAlloc : Allocation :=
      { oid := newId
        employee_id := req.employee_id
        vehicle_id := req.vehicle_id
        allocation_date := req.allocation_date
        purpose := req.purpose
        status := AllocationStatus.allocated
        created_at := now
        updated_at := now }
    Except.ok (db ++ [newAlloc], newAlloc)

/-- Outcome of `PUT /allocations/{id}`.  `invalidIdException` is the
unhandled `bson.errors.InvalidId` raised by `ObjectId(allocation_id)`
when the path parameter is not structurally valid. -/
inductive UpdateOutcome
  | invalidIdException
  | notFound
  | windowClosed
  | ok (db : List Allocation) (updated : Allocation)
deriving DecidableEq, Repr

/-- The `$set` document of `update_allocation` applied to a stored record:
only supplied non-null fields, plus an unconditional `updated_at`. -/
def applyUpdate (upd : AllocationUpdate) (now : DateTime) (a : Allocation) :
    Allocation :=
  { a with
    purpose := match upd.purpose with
      | some p => some p
      | none => a.purpose
    status := match upd.status with
      | some s => s
      | none => a.status
    updated_at := now }

/-- `update_one` on the first document matching `_id`. -/
def updateFirst (db : List Allocation) (idStr : String)
    (f : Allocation → Allocation) : List Allocation :=
  match db with
  | [] => []
  | a :: rest =>
    if a.oid == idStr then f a :: rest else a :: updateFirst rest idStr f

/-- `update_allocation` (`PUT /allocations/{id}`). -/
def update_allocation (db : List Allocation) (now : DateTime)
    (idStr : String) (upd : AllocationUpdate) : UpdateOutcome :=
  if !isValidObjectId idStr then
    UpdateOutcome.invalidIdException
  else
    match db.find? (fun a => a.oid == idStr) with
    | none => UpdateOutcome.notFound
    | some a =>
      if a.allocation_date.day ≤ now.day then
        UpdateOutcome.windowClosed
      else
        UpdateOutcome.ok (updateFirst db idStr (applyUpdate upd now))
          (applyUpdate upd now a)

/-- Outcome of `DELETE /allocations/{id}`. -/
inductive DeleteOutcome
  | invalidIdException
  | notFound
  | windowClosed
  | ok (db : List Allocation)
deriving DecidableEq, Repr

/-- `delete_one` on the first document matching `_id`. -/
def eraseFirst (db : List Allocation) (idStr : String) : List Allocation :=
  match db with
  | [] => []
  | a :: rest =>
    if a.oid == idStr then rest else a :: eraseFirst rest idStr

/-- `delete_allocation` (`DELETE /allocations/{id}`).  The window check is
`allocation_date <= datetime.combine(date.today(), datetime.max.time())`. -/
def delete_allocation (db : List Allocation) (now : DateTime)
    (idStr : String) : DeleteOutcome :=
  if !isValidObjectId idStr then
    DeleteOutcome.invalidIdException
  else
    match db.find? (fun a => a.oid == idStr) with
    | none => DeleteOutcome.notFound
    | some a =>
      if dtLe a.allocation_date (combineMax now.day) then
        DeleteOutcome.windowClosed
      else
        DeleteOutcome.ok (eraseFirst db idStr)

/-- Outcome of `GET /allocations/{id}`. -/
inductive GetOutcome
  | invalidIdentifier
  | notFound
  | ok (a : Allocation)
deriving DecidableEq, Repr

/-- `get_allocation` (`GET /allocations/{id}`): validates the identifier
before any lookup. -/
def get_allocation (db : List Allocation) (idStr : String) : GetOutcome :=
  if !isValidObjectId idStr then
    GetOutcome.invalidIdentifier
  else
    match db.find? (fun a => a.oid == idStr) with
    | none => GetOutcome.notFound
    | some a => GetOutcome.ok a

/-- The `allocation_date` entry of the Mongo filter built by
`get_allocations`.  In the both-bounds branch the handler puts the raw
Python `date` values into the filter (no `datetime.combine`), which the
BSON encoder cannot serialise. -/
inductive DateFilter
  | noFilter
  | bothRawDates (s e : Nat)
  | geMin (lo : DateTime)
  | leMax (hi : DateTime)
deriving DecidableEq, Repr

/-- The `if start_date and end_date / elif / elif` chain of
`get_allocations`. -/
def buildDateFilter (start_date end_date : Option Nat) : DateFilter :=
  match start_date, end_date with
  | some s, some e => DateFilter.bothRawDates s e
  | some s, none => DateFilter.geMin (combineMin s)
  | none, some e => DateFilter.leMax (combineMax e)
  | none, none => DateFilter.noFilter

/-- Whether the BSON encoder accepts the filter: `datetime.date` values
are not encodable (`bson.errors.InvalidDocument`), `datetime` values are. -/
def filterEncodable : DateFilter → Bool
  | DateFilter.bothRawDates _ _ => false
  | _ => true

/-- Which stored instants a date filter selects.  The `bothRawDates`
branch never reaches the matching stage: the query fails to encode first
(see `filterEncodable`). -/
def matchesDateFilter (t : DateTime) : DateFilter → Bool
  | DateFilter.noFilter => true
  | DateFilter.bothRawDates _ _ => false
  | DateFilter.geMin lo => dtLe lo t
  | DateFilter.leMax hi => dtLe t hi

/-- Query parameters of `GET /allocations/`.  `skip` and `limit` arrive as
integers; FastAPI validates `skip ≥ 0` and `1 ≤ limit ≤ 100` before the
handler runs. -/
structure ListQuery where
  employee_id : Option String
  vehicle_id : Option String
  status : Option AllocationStatus
  start_date : Option Nat
  end_date : Option Nat
  skip : Int
  limit : Int
deriving Repr

/-- `GET /allocations/` defaults: `skip: int = Query(0, ...)`. -/
def defaultSkip : Int := 0

/-- `GET /allocations/` defaults: `limit: int = Query(10, ...)`. -/
def defaultLimit : Int := 10

/-- An optional string filter: `if employee_id:` in Python is false for
both `None` and the empty string, so the filter only applies to a
non-empty supplied value. -/
def matchStrField (filter : Option String) (v : String) : Bool :=
  match filter with
  | some s => if s.isEmpty then true else v == s
  | none => true

/-- The status filter (`if status:`; both enum values are non-empty
strings, hence truthy). -/
def matchStatusField (filter : Option AllocationStatus)
    (st : AllocationStatus) : Bool :=
  match filter with
  | some s => st == s
  | none => true

/-- The complete Mongo filter document of `get_allocations` applied to a
stored allocation. -/
def matchesQuery (q : ListQuery) (a : Allocation) : Bool :=
  matchStrField q.employee_id a.employee_id
    && matchStrField q.vehicle_id a.vehicle_id
    && matchStatusField q.status a.status
    && matchesDateFilter a.allocation_date
        (buildDateFilter q.start_date q.end_date)

/-- `sort("allocation_date", -1)`: descending by allocation date. -/
def byDateDesc (a b : Allocation) : Bool :=
  dtLe b.allocation_date a.allocation_date

/-- Failure modes of `GET /allocations/`: FastAPI parameter validation
(422), or the BSON encoding failure of the both-bounds date filter. -/
inductive ListError
  | validation
  | invalidDocument
deriving DecidableEq, Repr

/-- `get_allocations` (`GET /allocations/`).  Mongo applies `sort` to the
matching set before `skip`/`limit`, whatever the cursor-call order. -/
def get_allocations (db : List Allocation) (q : ListQuery) :
    Except ListError (List Allocation) :=
  if q.skip < 0 then
    Except.error ListError.validation
  else if q.limit < 1 || 100 < q.limit then
    Except.error ListError.validation
  else if filterEncodable (buildDateFilter q.start_date q.end_date) then
    Except.ok
      ((((db.filter (matchesQuery q)).mergeSort byDateDesc).drop
          q.skip.toNat).take q.limit.toNat)
  else
    Except.error ListError.invalidDocument

/-- A BSON value as far as the `driver_id` field is concerned: vehicle
documents store it as a plain string, but `create_vehicle` queries it
with an `ObjectId` value; the two BSON types never compare equal. -/
inductive BsonVal
  | str (s : String)
  | objectId (s : String)
deriving DecidableEq, Repr

/-- A stored vehicle document (`app/models/vehicles.py::VehicleBase` plus
`_id` and `created_at`). -/
structure Vehicle where
  oid : String
  brand : Option String
  model : Option String
  registration_number : Option String
  driver_id : BsonVal
  created_at : DateTime
deriving DecidableEq, Repr

/-- `app/models/vehicles.py::VehicleBase` (request body). -/
structure VehicleBase where
  brand : Option String
  model : Option String
  registration_number : Option String
  driver_id : String
deriving DecidableEq, Repr

/-- Outcome of `POST /vehicles/`.  `invalidIdException` is the unhandled
`InvalidId` raised by `ObjectId(vehicle.driver_id)`. -/
inductive CreateVehicleOutcome
  | invalidIdException
  | driverAlreadyAssigned
  | ok (db : List Vehicle) (v : Vehicle)
deriving DecidableEq, Repr

/-- `create_vehicle` (`POST /vehicles/`).  The duplicate-driver check
queries `{"driver_id": ObjectId(vehicle.driver_id)}` while the insert
stores `driver_id` as the plain string from the request body. -/
def create_vehicle (db : List Vehicle) (now : DateTime)
    (req : VehicleBase) (newId : String) : CreateVehicleOutcome :=
  if !isValidObjectId req.driver_id then
    CreateVehicleOutcome.invalidIdException
  else if db.any (fun v => v.driver_id == BsonVal.objectId req.driver_id) then
    CreateVehicleOutcome.driverAlreadyAssigned
  else
    let newVehicle : Vehicle :=
      { oid := newId
        brand := req.brand
        model := req.model
        registration_number := req.registration_number
        driver_id := BsonVal.str req.driver_id
        created_at := now }
    CreateVehicleOutcome.ok (db ++ [newVehicle]) newVehicle

/-- The `$match` stage of `check_vehicle_availability`: allocation date in
`[combine(d, min.time), combine(d, max.time)]` and status ≠ cancelled. -/
def allocatedOn (d : Nat) (a : Allocation) : Bool :=
  dtLe (combineMin d) a.allocation_date
    && dtLe a.allocation_date (combineMax d)
    && a.status != AllocationStatus.cancelled

/-- The `$addToSet` aggregation: distinct `vehicle_id` values of the
matching allocations. -/
def allocatedVehicleIds (allocs : List Allocation) (d : Nat) : List String :=
  ((allocs.filter (allocatedOn d)).map Allocation.vehicle_id).dedup

/-- Response of `GET /vehicles/availability/{date}`. -/
structure AvailabilityResult where
  check_date : Nat
  total_vehicles : Nat
  allocated_vehicles : Nat
  available_vehicles : Nat
  vehicles : List Vehicle
deriving DecidableEq, Repr

/-- `check_vehicle_availability` (`GET /vehicles/availability/{date}`). -/
def check_vehicle_availability (allocs : List Allocation)
    (vehs : List Vehicle) (d : Nat) : AvailabilityResult :=
  let ids := allocatedVehicleIds allocs d
  let available := vehs.filter (fun v => !(ids.contains v.oid))
  { check_date := d
    total_vehicles := vehs.length
    allocated_vehicles := ids.length
    available_vehicles := available.length
    vehicles := available }

/-! ## Helper lemmas -/

theorem dtLe_total (a b : DateTime) : (dtLe a b || dtLe b a) = true := by
  unfold dtLe
  simp only [Bool.or_eq_true, Bool.and_eq_true, decide_eq_true_eq, beq_iff_eq]
  omega

theorem dtLe_trans (a b c : DateTime) (h1 : dtLe a b = true)
    (h2 : dtLe b c = true) : dtLe a c = true := by
  unfold dtLe at *
  simp only [Bool.or_eq_true, Bool.and_eq_true, decide_eq_true_eq,
    beq_iff_eq] at *
  omega

/-- For a well-formed datetime, `t <= combine(d, datetime.max.time())` is
the same as comparing the date portions: `t.date() ≤ d`. -/
theorem dtLe_combineMax_iff (t : DateTime) (d : Nat) (hw : t.wf) :
    dtLe t (combineMax d) = true ↔ t.day ≤ d := by
  unfold dtLe combineMax DateTime.wf at *
  simp only [Bool.or_eq_true, Bool.and_eq_true, decide_eq_true_eq, beq_iff_eq]
  omega

theorem byDateDesc_trans (a b c : Allocation) (h1 : byDateDesc a b = true)
    (h2 : byDateDesc b c = true) : byDateDesc a c = true :=
  dtLe_trans c.allocation_date b.allocation_date a.allocation_date h2 h1

theorem byDateDesc_total (a b : Allocation) :
    (byDateDesc a b || byDateDesc b a) = true := by
  unfold byDateDesc
  exact dtLe_total b.allocation_date a.allocation_date

theorem length_filter_add_length_filter_not {α : Type} (l : List α)
    (p : α → Bool) :
    (l.filter p).length + (l.filter (fun a => !(p a))).length = l.length := by
  induction l with
  | nil => rfl
  | cons a t ih =>
    cases h : p a <;> simp [List.filter_cons, h] <;> omega

/-! ## Claim theorems -/

/-- C5: `create_allocation` fails with `InvalidDate` if and only if the
date portion of the requested allocation date is strictly earlier than
the current date, regardless of the other fields of the request and of
the store state. -/
theorem create_allocation_invalidDate_iff (db : List Allocation)
    (now : DateTime) (req : AllocationCreate) (newId : String) :
    create_allocation db now req newId = Except.error CreateError.invalidDate
      ↔ req.allocation_date.day < now.day := by
  unfold create_allocation
  split
  next h => simp [h]
  next h =>
    split
    · simp [h]
    · simp [h]

/-- C10: for a structurally invalid identifier string, `update_allocation`
and `delete_allocation` raise the unhandled `InvalidId` exception from the
`ObjectId(...)` conversion (so they return neither `NotFound` nor an
`InvalidIdentifier` error), while `get_allocation` validates the
identifier first and returns `InvalidIdentifier`. -/
theorem invalid_id_conversion_paths (db : List Allocation) (now : DateTime)
    (idStr : String) (upd : AllocationUpdate)
    (h : isValidObjectId idStr = false) :
    update_allocation db now idStr upd = UpdateOutcome.invalidIdException ∧
    delete_allocation db now idStr = DeleteOutcome.invalidIdException ∧
    get_allocation db idStr = GetOutcome.invalidIdentifier := by
  unfold update_allocation delete_allocation get_allocation
  simp [h]

/-- Witness for C10 at the malformed identifier `"invalid_id"` from the
integration tests. -/
theorem invalid_id_conversion_paths_witness :
    update_allocation [] ⟨10, 0⟩ "invalid_id" ⟨none, none⟩ =
        UpdateOutcome.invalidIdException ∧
    delete_allocation [] ⟨10, 0⟩ "invalid_id" =
        DeleteOutcome.invalidIdException ∧
    get_allocation [] "invalid_id" = GetOutcome.invalidIdentifier :=
  invalid_id_conversion_paths [] ⟨10, 0⟩ "invalid_id" ⟨none, none⟩ (by decide)

/-- C3 (code bug): the duplicate-driver check of `create_vehicle` queries
`driver_id` as an `ObjectId` value while vehicles are stored with
`driver_id` as a plain string, and the two BSON types never compare
equal.  Creating a vehicle with driver `507f1f77bcf86cd799439011` on an
empty store succeeds and stores the string; immediately creating a
second vehicle with the same driver reference succeeds again instead of
failing with `DriverAlreadyAssigned`. -/
theorem create_vehicle_duplicate_driver_not_detected :
    create_vehicle [] ⟨20, 0⟩ ⟨none, none, none, "507f1f77bcf86cd799439011"⟩
        "aaaaaaaaaaaaaaaaaaaaaaaa" =
      CreateVehicleOutcome.ok
        [⟨"aaaaaaaaaaaaaaaaaaaaaaaa", none, none, none,
          BsonVal.str "507f1f77bcf86cd799439011", ⟨20, 0⟩⟩]
        ⟨"aaaaaaaaaaaaaaaaaaaaaaaa", none, none, none,
          BsonVal.str "507f1f77bcf86cd799439011", ⟨20, 0⟩⟩ ∧
    create_vehicle
        [⟨"aaaaaaaaaaaaaaaaaaaaaaaa", none, none, none,
          BsonVal.str "507f1f77bcf86cd799439011", ⟨20, 0⟩⟩]
        ⟨20, 0⟩ ⟨none, none, none, "507f1f77bcf86cd799439011"⟩
        "bbbbbbbbbbbbbbbbbbbbbbbb" =
      CreateVehicleOutcome.ok
        [⟨"aaaaaaaaaaaaaaaaaaaaaaaa", none, none, none,
          BsonVal.str "507f1f77bcf86cd799439011", ⟨20, 0⟩⟩,
         ⟨"bbbbbbbbbbbbbbbbbbbbbbbb", none, none, none,
          BsonVal.str "507f1f77bcf86cd799439011", ⟨20, 0⟩⟩]
        ⟨"bbbbbbbbbbbbbbbbbbbbbbbb", none, none, none,
          BsonVal.str "507f1f77bcf86cd799439011", ⟨20, 0⟩⟩ := by
  decide

/-- C8 (code bug): the single-bound date filters of `get_allocations`
behave as specified (start-of-day onward, resp. up to end-of-day), but
when both bounds are given the handler puts raw `date` values into the
Mongo filter; the BSON encoder rejects them, so the request fails with
an unhandled `InvalidDocument` error instead of performing an inclusive
range match.  Shown at the concrete request
`start_date = day 100, end_date = day 200`. -/
theorem get_allocations_date_filter_behaviour :
    (∀ (t : DateTime) (s : Nat),
      matchesDateFilter t (buildDateFilter (some s) none) =
        dtLe (combineMin s) t) ∧
    (∀ (t : DateTime) (e : Nat),
      matchesDateFilter t (buildDateFilter none (some e)) =
        dtLe t (combineMax e)) ∧
    buildDateFilter (some 100) (some 200) = DateFilter.bothRawDates 100 200 ∧
    filterEncodable (DateFilter.bothRawDates 100 200) = false ∧
    get_allocations [] ⟨none, none, none, some 100, some 200, 0, 10⟩ =
      Except.error ListError.invalidDocument :=
  ⟨fun _ _ => rfl, fun _ _ => rfl, rfl, rfl, rfl⟩

/-- C1 counterexample: the original claim fails in the code on two
counts.  (i) Precedence: the past-date check of `create_allocation`
runs before the conflict check, so with current date 10 a request for
vehicle `v1` dated day 5 fails with `InvalidDate` — not `Conflict` —
even though a non-cancelled allocation for the same vehicle and the
same date is present in the store.  (ii) Granularity: the conflict
`find_one` matches the exact stored `allocation_date` datetime value,
not the calendar date, so with current date 10 a request for `v1` dated
day 12 at time 5 succeeds although a non-cancelled allocation for `v1`
on calendar day 12 (stored at time 0) is present — no conflict is
raised for the same vehicle and same calendar date. -/
theorem create_conflict_original_claim_fails :
    (conflictsWith ⟨"e2", "v1", ⟨5, 0⟩, none⟩
        ⟨"aaaaaaaaaaaaaaaaaaaaaaaa", "e1", "v1", ⟨5, 0⟩, none,
          AllocationStatus.allocated, ⟨5, 0⟩, ⟨5, 0⟩⟩ = true ∧
      create_allocation
          [⟨"aaaaaaaaaaaaaaaaaaaaaaaa", "e1", "v1", ⟨5, 0⟩, none,
            AllocationStatus.allocated, ⟨5, 0⟩, ⟨5, 0⟩⟩]
          ⟨10, 0⟩ ⟨"e2", "v1", ⟨5, 0⟩, none⟩ "bbbbbbbbbbbbbbbbbbbbbbbb" =
        Except.error CreateError.invalidDate) ∧
    ((⟨"cccccccccccccccccccccccc", "e1", "v1", ⟨12, 0⟩, none,
        AllocationStatus.allocated, ⟨10, 0⟩, ⟨10, 0⟩⟩ :
          Allocation).vehicle_id = "v1" ∧
      (⟨"cccccccccccccccccccccccc", "e1", "v1", ⟨12, 0⟩, none,
        AllocationStatus.allocated, ⟨10, 0⟩, ⟨10, 0⟩⟩ :
          Allocation).status ≠ AllocationStatus.cancelled ∧
      (⟨"cccccccccccccccccccccccc", "e1", "v1", ⟨12, 0⟩, none,
        AllocationStatus.allocated, ⟨10, 0⟩, ⟨10, 0⟩⟩ :
          Allocation).allocation_date.day = (⟨12, 5⟩ : DateTime).day ∧
      create_allocation
          [⟨"cccccccccccccccccccccccc", "e1", "v1", ⟨12, 0⟩, none,
            AllocationStatus.allocated, ⟨10, 0⟩, ⟨10, 0⟩⟩]
          ⟨10, 0⟩ ⟨"e2", "v1", ⟨12, 5⟩, none⟩ "bbbbbbbbbbbbbbbbbbbbbbbb" =
        Except.ok
          ([⟨"cccccccccccccccccccccccc", "e1", "v1", ⟨12, 0⟩, none,
              AllocationStatus.allocated, ⟨10, 0⟩, ⟨10, 0⟩⟩,
            ⟨"bbbbbbbbbbbbbbbbbbbbbbbb", "e2", "v1", ⟨12, 5⟩, none,
              AllocationStatus.allocated, ⟨10, 0⟩, ⟨10, 0⟩⟩],
           ⟨"bbbbbbbbbbbbbbbbbbbbbbbb", "e2", "v1", ⟨12, 5⟩, none,
             AllocationStatus.allocated, ⟨10, 0⟩, ⟨10, 0⟩⟩)) :=
  ⟨⟨by decide, rfl⟩, by decide, by decide, by decide, rfl⟩

/-- C1 (amended): provided the requested allocation date is not strictly
earlier than the current date (otherwise `InvalidDate` takes
precedence), `create_allocation` fails with `Conflict` — surfaced with
HTTP status 401 — exactly when a stored allocation with the same vehicle
reference, the same allocation date value (the exact stored datetime,
not merely the same calendar date — see the counterexample's second
part) and status ≠ cancelled exists; when no such allocation exists
(in particular when every allocation for that vehicle and date is
cancelled) the creation succeeds. -/
theorem create_conflict_iff (db : List Allocation) (now : DateTime)
    (req : AllocationCreate) (newId : String)
    (h : ¬ req.allocation_date.day < now.day) :
    (create_allocation db now req newId = Except.error CreateError.conflict
      ↔ ∃ a ∈ db, conflictsWith req a = true) ∧
    ((∀ a ∈ db, conflictsWith req a = false) →
      ∃ r, create_allocation db now req newId = Except.ok r) ∧
    createErrorStatus CreateError.conflict = 401 := by
  unfold create_allocation
  refine ⟨?_, ?_, rfl⟩
  · simp only [if_neg h]
    split
    next hc =>
      simp only [List.any_eq_true] at hc
      simp [hc]
    next hc =>
      simp only [List.any_eq_true] at hc
      simp [hc]
  · intro hall
    have hc : db.any (conflictsWith req) = false := by
      simp only [List.any_eq_false]
      intro a ha
      simp [hall a ha]
    simp [if_neg h, hc]

/-- Witness for C1 (amended): with current date 10, a request for vehicle
`v1` dated day 12 conflicts with the stored non-cancelled allocation for
`v1` on day 12, but not with a store holding only a cancelled one. -/
theorem create_conflict_iff_witness :
    (create_allocation
        [⟨"aaaaaaaaaaaaaaaaaaaaaaaa", "e1", "v1", ⟨12, 0⟩, none,
          AllocationStatus.allocated, ⟨10, 0⟩, ⟨10, 0⟩⟩]
        ⟨10, 0⟩ ⟨"e2", "v1", ⟨12, 0⟩, none⟩ "bbbbbbbbbbbbbbbbbbbbbbbb" =
        Except.error CreateError.conflict
      ↔ ∃ a ∈ [(⟨"aaaaaaaaaaaaaaaaaaaaaaaa", "e1", "v1", ⟨12, 0⟩, none,
          AllocationStatus.allocated, ⟨10, 0⟩, ⟨10, 0⟩⟩ : Allocation)],
            conflictsWith ⟨"e2", "v1", ⟨12, 0⟩, none⟩ a = true) ∧
    ((∀ a ∈ [(⟨"aaaaaaaaaaaaaaaaaaaaaaaa", "e1", "v1", ⟨12, 0⟩, none,
          AllocationStatus.allocated, ⟨10, 0⟩, ⟨10, 0⟩⟩ : Allocation)],
        conflictsWith ⟨"e2", "v1", ⟨12, 0⟩, none⟩ a = false) →
      ∃ r, create_allocation
          [⟨"aaaaaaaaaaaaaaaaaaaaaaaa", "e1", "v1", ⟨12, 0⟩, none,
            AllocationStatus.allocated, ⟨10, 0⟩, ⟨10, 0⟩⟩]
          ⟨10, 0⟩ ⟨"e2", "v1", ⟨12, 0⟩, none⟩ "bbbbbbbbbbbbbbbbbbbbbbbb" =
        Except.ok r) ∧
    createErrorStatus CreateError.conflict = 401 :=
  create_conflict_iff
    [⟨"aaaaaaaaaaaaaaaaaaaaaaaa", "e1", "v1", ⟨12, 0⟩, none,
      AllocationStatus.allocated, ⟨10, 0⟩, ⟨10, 0⟩⟩]
    ⟨10, 0⟩ ⟨"e2", "v1", ⟨12, 0⟩, none⟩ "bbbbbbbbbbbbbbbbbbbbbbbb"
    (by decide)

/-- C2 counterexample: with an allocation dated day 10 (midnight) and the
current instant at midnight of day 10 — strictly before the end-of-day
instant of the allocation date — `delete_allocation` already fails with
`WindowClosed`, so the delete window is not "current instant at or after
end-of-day of the allocation date", and it is not one instant later than
the update window. -/
theorem delete_window_not_end_of_day :
    delete_allocation
        [⟨"aaaaaaaaaaaaaaaaaaaaaaaa", "e1", "v1", ⟨10, 0⟩, none,
          AllocationStatus.allocated, ⟨9, 0⟩, ⟨9, 0⟩⟩]
        ⟨10, 0⟩ "aaaaaaaaaaaaaaaaaaaaaaaa" = DeleteOutcome.windowClosed ∧
    dtLe (combineMax 10) ⟨10, 0⟩ = false := by
  decide

/-- C2 (amended): the delete and the update window coincide.  For every
store whose allocation dates are well-formed Python datetimes, and every
current instant, identifier and update body, `delete_allocation` fails
with `WindowClosed` exactly when `update_allocation` does: the delete
comparison `allocation_date <= combine(today, max.time)` is equivalent
to the update comparison `allocation_date.date() <= today`, so no state
blocks one of the two operations while permitting the other. -/
theorem delete_update_window_agree (db : List Allocation) (now : DateTime)
    (idStr : String) (upd : AllocationUpdate)
    (hwf : ∀ a ∈ db, a.allocation_date.wf) :
    delete_allocation db now idStr = DeleteOutcome.windowClosed ↔
      update_allocation db now idStr upd = UpdateOutcome.windowClosed := by
  unfold delete_allocation update_allocation
  cases hvalid : isValidObjectId idStr with
  | false => simp [hvalid]
  | true =>
    simp only [hvalid, Bool.not_true, Bool.false_eq_true, if_false]
    cases hfind : db.find? (fun a => a.oid == idStr) with
    | none => simp
    | some a =>
      have hw := hwf a (List.mem_of_find?_eq_some hfind)
      have hiff := dtLe_combineMax_iff a.allocation_date now.day hw
      by_cases hd : a.allocation_date.day ≤ now.day
      · simp [hiff.mpr hd, hd]
      · have hfalse : ¬ dtLe a.allocation_date (combineMax now.day) = true :=
          fun hh => hd (hiff.mp hh)
        simp [hfalse, hd]

/-- Witness for C2 (amended) on a one-allocation store dated day 10 with
the current instant inside day 10. -/
theorem delete_update_window_agree_witness :
    (∀ a ∈ [(⟨"aaaaaaaaaaaaaaaaaaaaaaaa", "e1", "v1", ⟨10, 0⟩, none,
        AllocationStatus.allocated, ⟨9, 0⟩, ⟨9, 0⟩⟩ : Allocation)],
      a.allocation_date.wf) ∧
    (delete_allocation
        [⟨"aaaaaaaaaaaaaaaaaaaaaaaa", "e1", "v1", ⟨10, 0⟩, none,
          AllocationStatus.allocated, ⟨9, 0⟩, ⟨9, 0⟩⟩]
        ⟨10, 5⟩ "aaaaaaaaaaaaaaaaaaaaaaaa" = DeleteOutcome.windowClosed ↔
      update_allocation
          [⟨"aaaaaaaaaaaaaaaaaaaaaaaa", "e1", "v1", ⟨10, 0⟩, none,
            AllocationStatus.allocated, ⟨9, 0⟩, ⟨9, 0⟩⟩]
          ⟨10, 5⟩ "aaaaaaaaaaaaaaaaaaaaaaaa" ⟨none, none⟩ =
        UpdateOutcome.windowClosed) :=
  ⟨by decide,
    delete_update_window_agree
      [⟨"aaaaaaaaaaaaaaaaaaaaaaaa", "e1", "v1", ⟨10, 0⟩, none,
        AllocationStatus.allocated, ⟨9, 0⟩, ⟨9, 0⟩⟩]
      ⟨10, 5⟩ "aaaaaaaaaaaaaaaaaaaaaaaa" ⟨none, none⟩ (by decide)⟩

/-- C4: for an existing allocation (a valid identifier found in the
store), `update_allocation` fails with `WindowClosed` if and only if the
allocation's date portion is today or earlier; when the date is strictly
in the future the update succeeds, returning the partially-updated
record. -/
theorem update_window_iff (db : List Allocation) (now : DateTime)
    (idStr : String) (upd : AllocationUpdate) (a : Allocation)
    (hv : isValidObjectId idStr = true)
    (hfind : db.find? (fun x => x.oid == idStr) = some a) :
    (update_allocation db now idStr upd = UpdateOutcome.windowClosed ↔
      a.allocation_date.day ≤ now.day) ∧
    (now.day < a.allocation_date.day →
      update_allocation db now idStr upd =
        UpdateOutcome.ok (updateFirst db idStr (applyUpdate upd now))
          (applyUpdate upd now a)) := by
  unfold update_allocation
  simp only [hv, Bool.not_true, Bool.false_eq_true, if_false, hfind]
  constructor
  · by_cases hd : a.allocation_date.day ≤ now.day
    · simp [hd]
    · simp [hd]
  · intro hgt
    rw [if_neg (by omega)]

/-- Witness for C4: an allocation dated day 12 is updatable on day 10 and
its window-closed test is false. -/
theorem update_window_iff_witness :
    ((update_allocation
        [⟨"aaaaaaaaaaaaaaaaaaaaaaaa", "e1", "v1", ⟨12, 0⟩, none,
          AllocationStatus.allocated, ⟨9, 0⟩, ⟨9, 0⟩⟩]
        ⟨10, 0⟩ "aaaaaaaaaaaaaaaaaaaaaaaa" ⟨some "p2", none⟩ =
        UpdateOutcome.windowClosed ↔ (12 : Nat) ≤ 10) ∧
      ((10 : Nat) < 12 →
        update_allocation
          [⟨"aaaaaaaaaaaaaaaaaaaaaaaa", "e1", "v1", ⟨12, 0⟩, none,
            AllocationStatus.allocated, ⟨9, 0⟩, ⟨9, 0⟩⟩]
          ⟨10, 0⟩ "aaaaaaaaaaaaaaaaaaaaaaaa" ⟨some "p2", none⟩ =
          UpdateOutcome.ok
            (updateFirst
              [⟨"aaaaaaaaaaaaaaaaaaaaaaaa", "e1", "v1", ⟨12, 0⟩, none,
                AllocationStatus.allocated, ⟨9, 0⟩, ⟨9, 0⟩⟩]
              "aaaaaaaaaaaaaaaaaaaaaaaa" (applyUpdate ⟨some "p2", none⟩ ⟨10, 0⟩))
            (applyUpdate ⟨some "p2", none⟩ ⟨10, 0⟩
              ⟨"aaaaaaaaaaaaaaaaaaaaaaaa", "e1", "v1", ⟨12, 0⟩, none,
                AllocationStatus.allocated, ⟨9, 0⟩, ⟨9, 0⟩⟩))) :=
  update_window_iff
    [⟨"aaaaaaaaaaaaaaaaaaaaaaaa", "e1", "v1", ⟨12, 0⟩, none,
      AllocationStatus.allocated, ⟨9, 0⟩, ⟨9, 0⟩⟩]
    ⟨10, 0⟩ "aaaaaaaaaaaaaaaaaaaaaaaa" ⟨some "p2", none⟩
    ⟨"aaaaaaaaaaaaaaaaaaaaaaaa", "e1", "v1", ⟨12, 0⟩, none,
      AllocationStatus.allocated, ⟨9, 0⟩, ⟨9, 0⟩⟩
    (by decide) (by decide)

/-- C6: on a successful `update_allocation`, the returned (and stored)
record changes only the explicitly supplied, non-null body fields
(`purpose`, `status`); the identifier, employee reference, vehicle
reference, allocation date and created timestamp are unchanged, and
`updated_at` is set to the current instant unconditionally — including
when no body field was supplied. -/
theorem update_applies_only_supplied_fields (db : List Allocation) (now : DateTime)
    (idStr : String) (upd : AllocationUpdate) (a : Allocation)
    (db' : List Allocation) (a' : Allocation)
    (hfind : db.find? (fun x => x.oid == idStr) = some a)
    (hok : update_allocation db now idStr upd = UpdateOutcome.ok db' a') :
    a'.oid = a.oid ∧
    a'.employee_id = a.employee_id ∧
    a'.vehicle_id = a.vehicle_id ∧
    a'.allocation_date = a.allocation_date ∧
    a'.created_at = a.created_at ∧
    a'.updated_at = now ∧
    a'.purpose = (match upd.purpose with
      | some p => some p
      | none => a.purpose) ∧
    a'.status = (match upd.status with
      | some s => s
      | none => a.status) := by
  unfold update_allocation at hok
  cases hvalid : isValidObjectId idStr with
  | false =>
    rw [hvalid] at hok
    simp at hok
  | true =>
    rw [hvalid] at hok
    simp only [Bool.not_true, Bool.false_eq_true, if_false, hfind] at hok
    by_cases hd : a.allocation_date.day ≤ now.day
    · rw [if_pos hd] at hok
      exact absurd hok (by simp)
    · rw [if_neg hd] at hok
      injection hok with h1 h2
      subst h2
      exact ⟨rfl, rfl, rfl, rfl, rfl, rfl, rfl, rfl⟩

/-- Witness for C6: updating purpose and status of an allocation dated
day 12 on day 10 keeps all other fields and refreshes `updated_at`. -/
theorem update_applies_only_supplied_fields_witness :
    (⟨"aaaaaaaaaaaaaaaaaaaaaaaa", "e1", "v1", ⟨12, 0⟩, some "Updated",
        AllocationStatus.cancelled, ⟨9, 0⟩, ⟨10, 0⟩⟩ : Allocation).oid =
      (⟨"aaaaaaaaaaaaaaaaaaaaaaaa", "e1", "v1", ⟨12, 0⟩, some "Original",
        AllocationStatus.allocated, ⟨9, 0⟩, ⟨9, 0⟩⟩ : Allocation).oid ∧
    (⟨"aaaaaaaaaaaaaaaaaaaaaaaa", "e1", "v1", ⟨12, 0⟩, some "Updated",
        AllocationStatus.cancelled, ⟨9, 0⟩, ⟨10, 0⟩⟩ : Allocation).employee_id =
      (⟨"aaaaaaaaaaaaaaaaaaaaaaaa", "e1", "v1", ⟨12, 0⟩, some "Original",
        AllocationStatus.allocated, ⟨9, 0⟩, ⟨9, 0⟩⟩ : Allocation).employee_id ∧
    (⟨"aaaaaaaaaaaaaaaaaaaaaaaa", "e1", "v1", ⟨12, 0⟩, some "Updated",
        AllocationStatus.cancelled, ⟨9, 0⟩, ⟨10, 0⟩⟩ : Allocation).vehicle_id =
      (⟨"aaaaaaaaaaaaaaaaaaaaaaaa", "e1", "v1", ⟨12, 0⟩, some "Original",
        AllocationStatus.allocated, ⟨9, 0⟩, ⟨9, 0⟩⟩ : Allocation).vehicle_id ∧
    (⟨"aaaaaaaaaaaaaaaaaaaaaaaa", "e1", "v1", ⟨12, 0⟩, some "Updated",
        AllocationStatus.cancelled, ⟨9, 0⟩, ⟨10, 0⟩⟩ : Allocation).allocation_date =
      (⟨"aaaaaaaaaaaaaaaaaaaaaaaa", "e1", "v1", ⟨12, 0⟩, some "Original",
        AllocationStatus.allocated, ⟨9, 0⟩, ⟨9, 0⟩⟩ : Allocation).allocation_date ∧
    (⟨"aaaaaaaaaaaaaaaaaaaaaaaa", "e1", "v1", ⟨12, 0⟩, some "Updated",
        AllocationStatus.cancelled, ⟨9, 0⟩, ⟨10, 0⟩⟩ : Allocation).created_at =
      (⟨"aaaaaaaaaaaaaaaaaaaaaaaa", "e1", "v1", ⟨12, 0⟩, some "Original",
        AllocationStatus.allocated, ⟨9, 0⟩, ⟨9, 0⟩⟩ : Allocation).created_at ∧
    (⟨"aaaaaaaaaaaaaaaaaaaaaaaa", "e1", "v1", ⟨12, 0⟩, some "Updated",
        AllocationStatus.cancelled, ⟨9, 0⟩, ⟨10, 0⟩⟩ : Allocation).updated_at =
      ⟨10, 0⟩ ∧
    (⟨"aaaaaaaaaaaaaaaaaaaaaaaa", "e1", "v1", ⟨12, 0⟩, some "Updated",
        AllocationStatus.cancelled, ⟨9, 0⟩, ⟨10, 0⟩⟩ : Allocation).purpose =
      (match (some "Updated" : Option String) with
        | some p => some p
        | none => (⟨"aaaaaaaaaaaaaaaaaaaaaaaa", "e1", "v1", ⟨12, 0⟩,
            some "Original", AllocationStatus.allocated, ⟨9, 0⟩,
            ⟨9, 0⟩⟩ : Allocation).purpose) ∧
    (⟨"aaaaaaaaaaaaaaaaaaaaaaaa", "e1", "v1", ⟨12, 0⟩, some "Updated",
        AllocationStatus.cancelled, ⟨9, 0⟩, ⟨10, 0⟩⟩ : Allocation).status =
      (match (some AllocationStatus.cancelled : Option AllocationStatus) with
        | some s => s
        | none => (⟨"aaaaaaaaaaaaaaaaaaaaaaaa", "e1", "v1", ⟨12, 0⟩,
            some "Original", AllocationStatus.allocated, ⟨9, 0⟩,
            ⟨9, 0⟩⟩ : Allocation).status) :=
  update_applies_only_supplied_fields
    [⟨"aaaaaaaaaaaaaaaaaaaaaaaa", "e1", "v1", ⟨12, 0⟩, some "Original",
      AllocationStatus.allocated, ⟨9, 0⟩, ⟨9, 0⟩⟩]
    ⟨10, 0⟩ "aaaaaaaaaaaaaaaaaaaaaaaa"
    ⟨some "Updated", some AllocationStatus.cancelled⟩
    ⟨"aaaaaaaaaaaaaaaaaaaaaaaa", "e1", "v1", ⟨12, 0⟩, some "Original",
      AllocationStatus.allocated, ⟨9, 0⟩, ⟨9, 0⟩⟩
    [⟨"aaaaaaaaaaaaaaaaaaaaaaaa", "e1", "v1", ⟨12, 0⟩, some "Updated",
      AllocationStatus.cancelled, ⟨9, 0⟩, ⟨10, 0⟩⟩]
    ⟨"aaaaaaaaaaaaaaaaaaaaaaaa", "e1", "v1", ⟨12, 0⟩, some "Updated",
      AllocationStatus.cancelled, ⟨9, 0⟩, ⟨10, 0⟩⟩
    (by decide) (by decide)

/-- C7 counterexample: a requested limit of 101 — outside [1,100] — is
rejected by FastAPI parameter validation rather than clamped, so it does
not yield a valid page. -/
theorem get_allocations_limit_not_clamped :
    get_allocations [] ⟨none, none, none, none, none, 0, 101⟩ =
      Except.error ListError.validation := by
  rfl

/-- C7 (amended): `skip` defaults to 0 and `limit` defaults to 10; a
request with `skip < 0` or `limit` outside [1,100] is rejected by
parameter validation (not clamped); an in-range request (with an
encodable date filter) returns the allocations matching the filters,
sorted by allocation date descending, with the first `skip` records
skipped and at most `limit` records returned. -/
theorem get_allocations_paging (db : List Allocation) (q : ListQuery) :
    defaultSkip = 0 ∧ defaultLimit = 10 ∧
    ((q.skip < 0 ∨ q.limit < 1 ∨ 100 < q.limit) →
      get_allocations db q = Except.error ListError.validation) ∧
    (0 ≤ q.skip → 1 ≤ q.limit → q.limit ≤ 100 →
      filterEncodable (buildDateFilter q.start_date q.end_date) = true →
      ∃ s : List Allocation,
        s.Perm (db.filter (matchesQuery q)) ∧
        s.Pairwise (fun a b => byDateDesc a b = true) ∧
        get_allocations db q =
          Except.ok ((s.drop q.skip.toNat).take q.limit.toNat) ∧
        ((s.drop q.skip.toNat).take q.limit.toNat).length ≤
          q.limit.toNat) := by
  refine ⟨rfl, rfl, ?_, ?_⟩
  · intro h
    unfold get_allocations
    by_cases h0 : q.skip < 0
    · simp [h0]
    · have hl : (decide (q.limit < 1) || decide (100 < q.limit)) = true := by
        rcases h with h | h | h
        · exact absurd h h0
        · simp [h]
        · simp [h]
      simp [h0, hl]
  · intro h0 h1 h2 henc
    refine ⟨(db.filter (matchesQuery q)).mergeSort byDateDesc,
      List.mergeSort_perm _ _,
      ?_, ?_, List.length_take_le _ _⟩
    · exact List.sorted_mergeSort byDateDesc_trans byDateDesc_total _
    · have hl : (decide (q.limit < 1) || decide (100 < q.limit)) = false := by
        simp only [Bool.or_eq_false_iff, decide_eq_false_iff_not]
        exact ⟨by omega, by omega⟩
      unfold get_allocations
      rw [if_neg (by omega : ¬ q.skip < 0), hl]
      simp [henc]

/-- Witness for C7 (amended): a default request (`skip = 0`,
`limit = 10`, no filters) on a one-allocation store returns that
allocation. -/
theorem get_allocations_paging_witness :
    get_allocations
        [⟨"aaaaaaaaaaaaaaaaaaaaaaaa", "e1", "v1", ⟨12, 0⟩, none,
          AllocationStatus.allocated, ⟨9, 0⟩, ⟨9, 0⟩⟩]
        ⟨none, none, none, none, none, 0, 10⟩ =
      Except.ok
        [⟨"aaaaaaaaaaaaaaaaaaaaaaaa", "e1", "v1", ⟨12, 0⟩, none,
          AllocationStatus.allocated, ⟨9, 0⟩, ⟨9, 0⟩⟩] := by
  obtain ⟨s, hperm, hsort, heq, hlen⟩ :=
    (get_allocations_paging
      [⟨"aaaaaaaaaaaaaaaaaaaaaaaa", "e1", "v1", ⟨12, 0⟩, none,
        AllocationStatus.allocated, ⟨9, 0⟩, ⟨9, 0⟩⟩]
      ⟨none, none, none, none, none, 0, 10⟩).2.2.2
      (by decide) (by decide) (by decide) rfl
  rw [show List.filter
      (matchesQuery ⟨none, none, none, none, none, 0, 10⟩)
      [⟨"aaaaaaaaaaaaaaaaaaaaaaaa", "e1", "v1", ⟨12, 0⟩, none,
        AllocationStatus.allocated, ⟨9, 0⟩, ⟨9, 0⟩⟩] =
      [⟨"aaaaaaaaaaaaaaaaaaaaaaaa", "e1", "v1", ⟨12, 0⟩, none,
        AllocationStatus.allocated, ⟨9, 0⟩, ⟨9, 0⟩⟩] from rfl] at hperm
  rw [List.perm_singleton.mp hperm] at heq
  exact heq.trans rfl

/-- The number of vehicles whose id occurs in a duplicate-free list of
ids that are all taken from the (duplicate-free) vehicle ids equals the
length of that id list. -/
theorem length_filter_mem {vehs : List Vehicle} {ids : List String}
    (hn : (vehs.map Vehicle.oid).Nodup) (hd : ids.Nodup)
    (hsub : ∀ r ∈ ids, r ∈ vehs.map Vehicle.oid) :
    (vehs.filter (fun v => ids.contains v.oid)).length = ids.length := by
  have h1 : ((vehs.map Vehicle.oid).filter (fun s => ids.contains s)) =
      (vehs.filter (fun v => ids.contains v.oid)).map Vehicle.oid := by
    rw [List.filter_map]
    rfl
  have h2 : ((vehs.map Vehicle.oid).filter (fun s => ids.contains s)).Perm
      ids := by
    apply (List.perm_ext_iff_of_nodup (hn.filter _) hd).mpr
    intro a
    simp only [List.mem_filter]
    constructor
    · rintro ⟨_, hc⟩
      exact List.elem_iff.mp hc
    · intro ha
      exact ⟨hsub a ha, List.elem_iff.mpr ha⟩
  have h3 := h2.length_eq
  rw [h1, List.length_map] at h3
  exact h3

/-- C9: `check_vehicle_availability(d)` returns exactly the stored
vehicles whose id is not among the vehicle references having a
non-cancelled allocation on calendar date `d`; a vehicle with such an
allocation never appears in the returned list, and — under the store
invariant that vehicle ids are unique and the precondition that every
allocated vehicle reference corresponds to an existing vehicle — the
counts satisfy `available_vehicles + allocated_vehicles =
total_vehicles`. -/
theorem check_vehicle_availability_correct (allocs : List Allocation)
    (vehs : List Vehicle) (d : Nat)
    (hn : (vehs.map Vehicle.oid).Nodup)
    (hsub : ∀ r ∈ allocatedVehicleIds allocs d, r ∈ vehs.map Vehicle.oid) :
    (check_vehicle_availability allocs vehs d).available_vehicles +
        (check_vehicle_availability allocs vehs d).allocated_vehicles =
      (check_vehicle_availability allocs vehs d).total_vehicles ∧
    ∀ a ∈ allocs, a.status ≠ AllocationStatus.cancelled →
      a.allocation_date.day = d → a.allocation_date.wf →
      ∀ v ∈ (check_vehicle_availability allocs vehs d).vehicles,
        v.oid ≠ a.vehicle_id := by
  constructor
  · show (vehs.filter
        (fun v => !((allocatedVehicleIds allocs d).contains v.oid))).length +
        (allocatedVehicleIds allocs d).length = vehs.length
    have hd' : (allocatedVehicleIds allocs d).Nodup := List.nodup_dedup _
    have hk : (vehs.filter
          (fun v => (allocatedVehicleIds allocs d).contains v.oid)).length =
        (allocatedVehicleIds allocs d).length :=
      length_filter_mem hn hd' hsub
    have hsplit : (vehs.filter
          (fun v => (allocatedVehicleIds allocs d).contains v.oid)).length +
        (vehs.filter
          (fun v => !((allocatedVehicleIds allocs d).contains v.oid))).length =
        vehs.length :=
      length_filter_add_length_filter_not vehs _
    omega
  · intro a ha hst hday hwf v hv hcontra
    have hv' : v ∈ vehs.filter
        (fun x => !((allocatedVehicleIds allocs d).contains x.oid)) := hv
    have hnc := (List.mem_filter.mp hv').2
    have hallocOn : allocatedOn d a = true := by
      unfold allocatedOn dtLe combineMin combineMax
      unfold DateTime.wf at hwf
      simp only [Bool.and_eq_true, Bool.or_eq_true, decide_eq_true_eq,
        beq_iff_eq, bne_iff_ne, ne_eq]
      refine ⟨⟨?_, ?_⟩, hst⟩ <;> omega
    have hmemids : a.vehicle_id ∈ allocatedVehicleIds allocs d := by
      unfold allocatedVehicleIds
      rw [List.mem_dedup]
      exact List.mem_map_of_mem _ (List.mem_filter.mpr ⟨ha, hallocOn⟩)
    have hcont : (allocatedVehicleIds allocs d).contains a.vehicle_id =
        true := List.elem_iff.mpr hmemids
    rw [hcontra, hcont] at hnc
    exact absurd hnc (by decide)

/-- Witness for C9: two vehicles, one non-cancelled allocation for the
first on day 15; counts add up and the allocated vehicle is excluded. -/
theorem check_vehicle_availability_correct_witness :
    (check_vehicle_availability
        [⟨"cccccccccccccccccccccccc", "e1", "aaaaaaaaaaaaaaaaaaaaaaaa",
          ⟨15, 0⟩, none, AllocationStatus.allocated, ⟨9, 0⟩, ⟨9, 0⟩⟩]
        [⟨"aaaaaaaaaaaaaaaaaaaaaaaa", none, none, none, BsonVal.str "d1",
          ⟨1, 0⟩⟩,
         ⟨"bbbbbbbbbbbbbbbbbbbbbbbb", none, none, none, BsonVal.str "d2",
          ⟨1, 0⟩⟩] 15).available_vehicles +
      (check_vehicle_availability
        [⟨"cccccccccccccccccccccccc", "e1", "aaaaaaaaaaaaaaaaaaaaaaaa",
          ⟨15, 0⟩, none, AllocationStatus.allocated, ⟨9, 0⟩, ⟨9, 0⟩⟩]
        [⟨"aaaaaaaaaaaaaaaaaaaaaaaa", none, none, none, BsonVal.str "d1",
          ⟨1, 0⟩⟩,
         ⟨"bbbbbbbbbbbbbbbbbbbbbbbb", none, none, none, BsonVal.str "d2",
          ⟨1, 0⟩⟩] 15).allocated_vehicles =
      (check_vehicle_availability
        [⟨"cccccccccccccccccccccccc", "e1", "aaaaaaaaaaaaaaaaaaaaaaaa",
          ⟨15, 0⟩, none, AllocationStatus.allocated, ⟨9, 0⟩, ⟨9, 0⟩⟩]
        [⟨"aaaaaaaaaaaaaaaaaaaaaaaa", none, none, none, BsonVal.str "d1",
          ⟨1, 0⟩⟩,
         ⟨"bbbbbbbbbbbbbbbbbbbbbbbb", none, none, none, BsonVal.str "d2",
          ⟨1, 0⟩⟩] 15).total_vehicles ∧
    ∀ a ∈ [(⟨"cccccccccccccccccccccccc", "e1", "aaaaaaaaaaaaaaaaaaaaaaaa",
        ⟨15, 0⟩, none, AllocationStatus.allocated, ⟨9, 0⟩,
        ⟨9, 0⟩⟩ : Allocation)],
      a.status ≠ AllocationStatus.cancelled →
      a.allocation_date.day = 15 → a.allocation_date.wf →
      ∀ v ∈ (check_vehicle_availability
        [⟨"cccccccccccccccccccccccc", "e1", "aaaaaaaaaaaaaaaaaaaaaaaa",
          ⟨15, 0⟩, none, AllocationStatus.allocated, ⟨9, 0⟩, ⟨9, 0⟩⟩]
        [⟨"aaaaaaaaaaaaaaaaaaaaaaaa", none, none, none, BsonVal.str "d1",
          ⟨1, 0⟩⟩,
         ⟨"bbbbbbbbbbbbbbbbbbbbbbbb", none, none, none, BsonVal.str "d2",
          ⟨1, 0⟩⟩] 15).vehicles,
        v.oid ≠ a.vehicle_id :=
  check_vehicle_availability_correct
    [⟨"cccccccccccccccccccccccc", "e1", "aaaaaaaaaaaaaaaaaaaaaaaa",
      ⟨15, 0⟩, none, AllocationStatus.allocated, ⟨9, 0⟩, ⟨9, 0⟩⟩]
    [⟨"aaaaaaaaaaaaaaaaaaaaaaaa", none, none, none, BsonVal.str "d1",
      ⟨1, 0⟩⟩,
     ⟨"bbbbbbbbbbbbbbbbbbbbbbbb", none, none, none, BsonVal.str "d2",
      ⟨1, 0⟩⟩] 15 (by decide) (by decide)
